import Mathlib

/-!
Verification of the hours-reconciliation aggregation logic of an
attendance-management dashboard.

The embedded code comes from three components:
* `DailyHoursGrid` (`fetchGridData`, `calculateHoursDifference`),
* `AttendanceReports` (`calculateHoursSummary`, `calculateHoursDifference`),
* `HoursCalendarView` (`fetchCalendarData`, `calculateHoursDifference`).

Modelling conventions:
* A time of day is a number of minutes since midnight (`Nat`); the source
  handles times through `HH:mm` strings parsed onto a fixed reference date,
  so minute granularity is exact.
* A calendar date is an epoch-day number (`Nat`); the source compares dates
  through `yyyy-MM-dd` strings, i.e. by calendar day.
* Hour quantities are exact rationals (`ℚ`); the source divides a
  millisecond difference by 3,600,000.
* JavaScript `Math.round(x * 100) / 100` (all rounded quantities here are
  non-negative) is `jsRound2` below, using `Rat.floor (x * 100 + 1/2)`.
* Fallible remote queries are `Option` results: `none` is the error branch.
-/

namespace Absensi

/-- Minutes in one day; the source adds 24 hours to the end time of an
overnight interval. -/
def minutesPerDay : Nat := 1440

/-- Embeds `calculateHoursDifference(startTime, endTime)` (identical in
`DailyHoursGrid`, `AttendanceReports` and `HoursCalendarView`): both times
are placed on a common reference date, the end is pushed one day later when
it is strictly before the start, and the difference is returned in hours. -/
def calculateHoursDifference (startTime endTime : Nat) : ℚ :=
  let endAdjusted : ℤ := if endTime < startTime then (endTime : ℤ) + minutesPerDay else (endTime : ℤ)
  ((endAdjusted - (startTime : ℤ) : ℤ) : ℚ) / 60

/-- JavaScript `Math.max`, written with an `if` so that it evaluates by
kernel reduction; equal to `max` (see `jsMax_eq_max`). -/
def jsMax (a b : ℚ) : ℚ := if a ≤ b then b else a

/-- JavaScript `Math.round(x * 100) / 100` for the non-negative hour values
of this code base: `Math.round` rounds half towards positive infinity,
i.e. `⌊x + 1/2⌋`. -/
def jsRound2 (x : ℚ) : ℚ := ((⌊x * 100 + 1/2⌋ : ℤ) : ℚ) / 100

/-- A shift row (`shift` table): a name and start/end times of day
(`jam_masuk`, `jam_keluar`); `none` models a null/empty time field, which
is falsy in the source's truthiness guards. -/
structure Shift where
  nama_shift : String
  jam_masuk : Option Nat
  jam_keluar : Option Nat
deriving DecidableEq, Repr

/-- An attendance row (`absensi` table) as consumed by the aggregators:
`waktu` is the clock-in timestamp, split into its calendar day
(`waktu_day`) and its time of day (`waktu_time`, the `HH:mm` part);
`clock_out_time` is the optional clock-out timestamp, of which the source
only ever uses the `HH:mm` part; `shift` is the optionally joined shift
row. -/
structure AttendanceRecord where
  user_id : String
  waktu_day : Nat
  waktu_time : Nat
  clock_out_time : Option Nat
  shift : Option Shift
deriving DecidableEq, Repr

/-- The truthiness guard `record.shift && record.shift.jam_masuk &&
record.shift.jam_keluar` common to all three aggregation sites. -/
def hasCompleteShift (r : AttendanceRecord) : Bool :=
  match r.shift with
  | some s => s.jam_masuk.isSome && s.jam_keluar.isSome
  | none => false

/-- Expected hours contributed by one record: `calculateHoursDifference`
of the shift's start/end times when the shift guard passes, nothing
otherwise. -/
def expectedContribution (r : AttendanceRecord) : ℚ :=
  match r.shift with
  | some s =>
    match s.jam_masuk, s.jam_keluar with
    | some ji, some jk => calculateHoursDifference ji jk
    | _, _ => 0
  | none => 0

/-- Actual hours contributed by one record: inside the shift guard, the
source adds `calculateHoursDifference` of the clock-in and clock-out times
of day only when `record.waktu && record.clock_out_time` — `waktu` is
always present here, so the condition is the presence of the clock-out
timestamp. A record failing the shift guard contributes nothing. -/
def actualContribution (r : AttendanceRecord) : ℚ :=
  match r.shift with
  | some s =>
    match s.jam_masuk, s.jam_keluar with
    | some _, some _ =>
      match r.clock_out_time with
      | some t => calculateHoursDifference r.waktu_time t
      | none => 0
    | _, _ => 0
  | none => 0

/-- The per-day record filter `record => format(record.waktu, 'yyyy-MM-dd')
=== dateStr`, shared by `fetchGridData` and `fetchCalendarData`. -/
def recordsOnDay (records : List AttendanceRecord) (day : Nat) : List AttendanceRecord :=
  records.filter (fun r => r.waktu_day == day)

/-- `dayAttendance.length > 0`. -/
def attended (records : List AttendanceRecord) (day : Nat) : Bool :=
  !(recordsOnDay records day).isEmpty

/-- The day's expected-hours accumulator of both aggregation loops:
`expectedHours += ...` over the day's records. -/
def rawExpected (records : List AttendanceRecord) (day : Nat) : ℚ :=
  ((recordsOnDay records day).map expectedContribution).sum

/-- The day's actual-hours accumulator of both aggregation loops:
`actualHours += ...` over the day's records. -/
def rawActual (records : List AttendanceRecord) (day : Nat) : ℚ :=
  ((recordsOnDay records day).map actualContribution).sum

/-- `Math.max(0, expectedHours - actualHours)` at full precision. -/
def rawMissing (records : List AttendanceRecord) (day : Nat) : ℚ :=
  jsMax 0 (rawExpected records day - rawActual records day)

/-- `Math.max(0, actualHours - expectedHours)` at full precision. -/
def rawOvertime (records : List AttendanceRecord) (day : Nat) : ℚ :=
  jsMax 0 (rawActual records day - rawExpected records day)

/-- The four-way day classification of `HoursCalendarView`. -/
inductive DayStatus where
  | complete
  | missing
  | overtime
  | noAttendance
deriving DecidableEq, Repr

/-- One cell of the calendar view (`DayData` in `HoursCalendarView`),
without the redundant `attendanceRecords` payload. -/
structure DayData where
  date : Nat
  expectedHours : ℚ
  actualHours : ℚ
  missingHours : ℚ
  overtimeHours : ℚ
  hasAttendance : Bool
  status : DayStatus
deriving DecidableEq, Repr

/-- The per-day body of `fetchCalendarData`'s `calendarDays.map`: filter
the month's records to the day, accumulate expected and actual hours,
take the two residuals, classify, and round every hour field to two
decimals for display. The `status` branch tests the accumulators before
rounding, exactly as the source does. -/
def processDay (records : List AttendanceRecord) (date : Nat) : DayData :=
  let expectedHours := rawExpected records date
  let actualHours := rawActual records date
  let missingHours := jsMax 0 (expectedHours - actualHours)
  let overtimeHours := jsMax 0 (actualHours - expectedHours)
  let hasAttendance := attended records date
  let status : DayStatus :=
    if hasAttendance then
      if missingHours > 0 then .missing
      else if overtimeHours > 0 then .overtime
      else .complete
    else .noAttendance
  { date := date
    expectedHours := jsRound2 expectedHours
    actualHours := jsRound2 actualHours
    missingHours := jsRound2 missingHours
    overtimeHours := jsRound2 overtimeHours
    hasAttendance := hasAttendance
    status := status }

/-- One cell of the daily grid (`DailyHourData` in `DailyHoursGrid`). -/
structure DailyHourData where
  date : Nat
  expectedHours : ℚ
  actualHours : ℚ
  missingHours : ℚ
  hasAttendance : Bool
deriving DecidableEq, Repr

/-- The running state of `fetchGridData`'s per-user loop over the working
days: the three `total...` accumulators, `workingDaysCount`, and the
`dailyData` entries built so far. -/
structure GridAcc where
  totalMissingHours : ℚ
  totalExpectedHours : ℚ
  totalActualHours : ℚ
  workingDaysCount : Nat
  dailyData : List (Nat × DailyHourData)
deriving DecidableEq, Repr

/-- One iteration of `workingDaysInMonth.forEach` in `fetchGridData`:
compute the day's hours, add them to the totals only when the day has at
least one record, and append the rounded `dailyData[dateStr]` entry. -/
def gridDayStep (ua : List AttendanceRecord) (acc : GridAcc) (date : Nat) : GridAcc :=
  let expectedHours := rawExpected ua date
  let actualHours := rawActual ua date
  let missingHours := jsMax 0 (expectedHours - actualHours)
  let hasAttendance := attended ua date
  let acc1 : GridAcc :=
    if hasAttendance then
      { acc with
        workingDaysCount := acc.workingDaysCount + 1
        totalExpectedHours := acc.totalExpectedHours + expectedHours
        totalActualHours := acc.totalActualHours + actualHours
        totalMissingHours := acc.totalMissingHours + missingHours }
    else acc
  { acc1 with
    dailyData := acc1.dailyData ++
      [(date,
        { date := date
          expectedHours := jsRound2 expectedHours
          actualHours := jsRound2 actualHours
          missingHours := jsRound2 missingHours
          hasAttendance := hasAttendance })] }

/-- A `profiles` row as consumed by the grid: id and display name. -/
structure User where
  id : String
  name : String
deriving DecidableEq, Repr

/-- One row of the grid (`UserDailyData` in `DailyHoursGrid`). -/
structure UserDailyData where
  userId : String
  userName : String
  dailyData : List (Nat × DailyHourData)
  totalMissingHours : ℚ
  totalExpectedHours : ℚ
  totalActualHours : ℚ
  workingDays : Nat
deriving DecidableEq, Repr

/-- `attendanceData.filter(record => record.user_id === user.id)`. -/
def userRecords (attendanceData : List AttendanceRecord) (uid : String) :
    List AttendanceRecord :=
  attendanceData.filter (fun r => r.user_id == uid)

/-- The per-user body of `processedData` in `fetchGridData`: run the
working-day loop from zeroed accumulators and round the monthly totals
once at the end. -/
def processGridUser (workingDaysInMonth : List Nat)
    (attendanceData : List AttendanceRecord) (u : User) : UserDailyData :=
  let ua := userRecords attendanceData u.id
  let acc := workingDaysInMonth.foldl (gridDayStep ua) ⟨0, 0, 0, 0, []⟩
  { userId := u.id
    userName := u.name
    dailyData := acc.dailyData
    totalMissingHours := jsRound2 acc.totalMissingHours
    totalExpectedHours := jsRound2 acc.totalExpectedHours
    totalActualHours := jsRound2 acc.totalActualHours
    workingDays := acc.workingDaysCount }

/-- One row of the hours-summary report (`HoursSummary` in
`AttendanceReports`). -/
structure HoursSummary where
  userId : String
  workingDays : Nat
  totalExpectedHours : ℚ
  totalActualHours : ℚ
  missingHours : ℚ
  overtimeHours : ℚ
  efficiency : ℚ
  averageHoursPerDay : ℚ
deriving DecidableEq, Repr

/-- One iteration of `records.forEach` in `calculateHoursSummary`: inside
the shift guard, `workingDays++`, the expected hours are added, and the
actual hours are added when the clock-out is present (both additions are
`expectedContribution` / `actualContribution`). The accumulator is
(totalExpectedHours, totalActualHours, workingDays). -/
def summaryStep (acc : ℚ × ℚ × Nat) (r : AttendanceRecord) : ℚ × ℚ × Nat :=
  if hasCompleteShift r then
    (acc.1 + expectedContribution r, acc.2.1 + actualContribution r, acc.2.2 + 1)
  else acc

/-- `calculateHoursSummary` for one user's record list: fold the records,
take the residuals, efficiency and per-day average, and round every
rational output to two decimals. -/
def calculateHoursSummary (uid : String) (records : List AttendanceRecord) :
    HoursSummary :=
  let acc := records.foldl summaryStep (0, 0, 0)
  let totalExpectedHours := acc.1
  let totalActualHours := acc.2.1
  let workingDays := acc.2.2
  let missingHours := jsMax 0 (totalExpectedHours - totalActualHours)
  let overtimeHours := jsMax 0 (totalActualHours - totalExpectedHours)
  let efficiency : ℚ :=
    if totalExpectedHours > 0 then totalActualHours / totalExpectedHours * 100 else 0
  let averageHoursPerDay : ℚ :=
    if workingDays > 0 then totalActualHours / (workingDays : ℚ) else 0
  { userId := uid
    workingDays := workingDays
    totalExpectedHours := jsRound2 totalExpectedHours
    totalActualHours := jsRound2 totalActualHours
    missingHours := jsRound2 missingHours
    overtimeHours := jsRound2 overtimeHours
    efficiency := jsRound2 efficiency
    averageHoursPerDay := jsRound2 averageHoursPerDay }

/-- Day of week of an epoch-day number; day 0 (1970-01-01) was a
Thursday, and `date-fns` `getDay` numbers Sunday as 0 and Saturday
as 6. -/
def dayOfWeek (d : Nat) : Nat := (d + 4) % 7

/-- `date-fns` `isWeekend`: the day of week is Sunday (0) or
Saturday (6). -/
def isWeekend (d : Nat) : Bool := dayOfWeek d == 0 || dayOfWeek d == 6

/-- `date-fns` `eachDayOfInterval`: every day from `startDay` to `endDay`
inclusive, in calendar order. -/
def eachDayOfInterval (startDay endDay : Nat) : List Nat :=
  (List.range (endDay + 1 - startDay)).map (startDay + ·)

/-- The days of a month as epoch days: `monthStart` through
`monthStart + monthLen - 1`, the source's
`eachDayOfInterval({ start: monthStart, end: monthEnd })`. -/
def monthDays (monthStart monthLen : Nat) : List Nat :=
  eachDayOfInterval monthStart (monthStart + monthLen - 1)

/-- `fetchGridData`'s working-day enumeration:
`allDays.filter(day => !isWeekend(day))`. -/
def workingDaysInMonth (monthStart monthLen : Nat) : List Nat :=
  (monthDays monthStart monthLen).filter (fun d => !isWeekend d)

/-- The component state of `DailyHoursGrid` touched by `fetchGridData`. -/
structure GridState where
  gridData : List UserDailyData
  workingDays : List Nat
  loading : Bool
deriving DecidableEq, Repr

/-- One full run of `fetchGridData`, with the two remote queries as
`Option` results (`none` is the error branch). The source sets `loading`
to true, computes and stores the working days, returns early with
`loading` reset when the user query or the attendance query errors, and
otherwise stores the processed rows. -/
def fetchGridData (s : GridState) (monthStart monthLen : Nat)
    (usersResult : Option (List User))
    (attendanceResult : Option (List AttendanceRecord)) : GridState :=
  let s1 : GridState := { s with loading := true }
  let wdays := workingDaysInMonth monthStart monthLen
  let s2 : GridState := { s1 with workingDays := wdays }
  match usersResult with
  | none => { s2 with loading := false }
  | some users =>
    match attendanceResult with
    | none => { s2 with loading := false }
    | some attendanceData =>
      { s2 with
        gridData := users.map (processGridUser wdays attendanceData)
        loading := false }

/-- `date-fns` `startOfWeek` (week starts on Sunday). -/
def startOfWeek (d : Nat) : Nat := d - dayOfWeek d

/-- `date-fns` `endOfWeek` (week ends on Saturday). -/
def endOfWeek (d : Nat) : Nat := d + (6 - dayOfWeek d)

/-- The calendar grid of `fetchCalendarData`: every day from the Sunday
on or before the first of the month to the Saturday on or after its last
day (adjacent-month padding included). -/
def calendarDaysOfMonth (monthStart monthLen : Nat) : List Nat :=
  eachDayOfInterval (startOfWeek monthStart) (endOfWeek (monthStart + monthLen - 1))

/-- The component state of `HoursCalendarView` touched by
`fetchCalendarData`. -/
structure CalendarState where
  calendarData : List DayData
  loading : Bool
deriving DecidableEq, Repr

/-- One full run of `fetchCalendarData` for the already-selected user,
with the attendance query as an `Option` result: on error the source
logs, resets `loading` and returns without touching `calendarData`;
otherwise it replaces `calendarData` with the processed calendar grid. -/
def fetchCalendarData (s : CalendarState) (monthStart monthLen : Nat)
    (attendanceResult : Option (List AttendanceRecord)) : CalendarState :=
  let s1 : CalendarState := { s with loading := true }
  match attendanceResult with
  | none => { s1 with loading := false }
  | some attendanceData =>
    { s1 with
      calendarData := (calendarDaysOfMonth monthStart monthLen).map
        (processDay attendanceData)
      loading := false }

/-- Every hour quantity in this code is an integer number of minutes
divided by 60. -/
def IsSixtieth (q : ℚ) : Prop := ∃ k : ℤ, q = (k : ℚ) / 60

/-- The `dailyData[dateStr]` entry built by one grid-loop iteration. -/
def dayEntry (ua : List AttendanceRecord) (d : Nat) : Nat × DailyHourData :=
  (d,
   { date := d
     expectedHours := jsRound2 (rawExpected ua d)
     actualHours := jsRound2 (rawActual ua d)
     missingHours := jsRound2 (rawMissing ua d)
     hasAttendance := attended ua d })

/-- A concrete morning-shift record used by concrete instantiations:
shift 09:00 – 17:00, clock-in 09:00, clock-out 17:00. -/
def sampleMorningRecord : AttendanceRecord :=
  { user_id := "u", waktu_day := 3, waktu_time := 540,
    clock_out_time := some 1020,
    shift := some { nama_shift := "pagi", jam_masuk := some 540,
                    jam_keluar := some 1020 } }

/-- A concrete evening-shift record on the same day: shift
18:00 – 22:00, clock-in 18:00, still open (no clock-out). -/
def sampleEveningRecord : AttendanceRecord :=
  { user_id := "u", waktu_day := 3, waktu_time := 1080,
    clock_out_time := none,
    shift := some { nama_shift := "sore", jam_masuk := some 1080,
                    jam_keluar := some 1320 } }

end Absensi

namespace Absensi

theorem jsMax_eq_max (a b : ℚ) : jsMax a b = max a b := by
  unfold jsMax
  rcases le_total a b with h | h
  · rw [if_pos h, max_eq_right h]
  · rcases eq_or_lt_of_le h with rfl | h2
    · simp
    · rw [if_neg (not_le.mpr h2), max_eq_left h]

/-- The first testable property of the spec, instantiated at concrete
times: a 22:00 – 06:00 interval crosses midnight and lasts 8 hours. -/
example : calculateHoursDifference 1320 360 = 8 := by
  norm_num [calculateHoursDifference, minutesPerDay]

example : calculateHoursDifference 540 1020 = 8 := by
  norm_num [calculateHoursDifference, minutesPerDay]

/-- C1: for time-of-day pairs (start, end) in minutes, the hours
difference is `end − start` when `end ≥ start`, `(end + 24h) − start` when
`end < start`, and is non-negative in every case. -/
theorem calculateHoursDifference_spec (s e : Nat) (hs : s < minutesPerDay)
    (he : e < minutesPerDay) :
    (s ≤ e → calculateHoursDifference s e = ((e : ℚ) - s) / 60) ∧
    (e < s → calculateHoursDifference s e = (((e : ℚ) + minutesPerDay) - s) / 60) ∧
    0 ≤ calculateHoursDifference s e := by
  unfold calculateHoursDifference minutesPerDay
  simp only [minutesPerDay] at hs he
  refine ⟨?_, ?_, ?_⟩
  · intro h
    rw [if_neg (by omega)]
    push_cast
    ring
  · intro h
    rw [if_pos (by omega)]
    push_cast
    ring
  · by_cases h : e < s
    · rw [if_pos (by omega)]
      have h1 : (0 : ℤ) ≤ (e : ℤ) + 1440 - (s : ℤ) := by omega
      exact div_nonneg (by exact_mod_cast h1) (by norm_num)
    · rw [if_neg (by omega)]
      have h1 : (0 : ℤ) ≤ (e : ℤ) - (s : ℤ) := by omega
      exact div_nonneg (by exact_mod_cast h1) (by norm_num)

/-! ### Helper lemmas: rounding and minute granularity -/

theorem jsRound2_zero : jsRound2 0 = 0 := by
  norm_num [jsRound2]

theorem jsMax_zero_of_nonpos {x : ℚ} (h : x ≤ 0) : jsMax 0 x = 0 := by
  unfold jsMax
  by_cases h0 : (0 : ℚ) ≤ x
  · rw [if_pos h0]
    exact le_antisymm h h0
  · rw [if_neg h0]

theorem jsMax_eq_of_nonneg {x : ℚ} (h : 0 ≤ x) : jsMax 0 x = x := if_pos h

theorem isSixtieth_zero : IsSixtieth 0 := ⟨0, by norm_num⟩

theorem isSixtieth_calculateHoursDifference (s e : Nat) :
    IsSixtieth (calculateHoursDifference s e) := by
  simp only [calculateHoursDifference]
  by_cases h : e < s
  · rw [if_pos h]
    exact ⟨(e : ℤ) + (minutesPerDay : ℤ) - (s : ℤ), by push_cast; ring⟩
  · rw [if_neg h]
    exact ⟨(e : ℤ) - (s : ℤ), by push_cast; ring⟩

theorem isSixtieth_expectedContribution (r : AttendanceRecord) :
    IsSixtieth (expectedContribution r) := by
  unfold expectedContribution
  repeat' split
  all_goals first
    | exact isSixtieth_zero
    | exact isSixtieth_calculateHoursDifference ..

theorem isSixtieth_actualContribution (r : AttendanceRecord) :
    IsSixtieth (actualContribution r) := by
  unfold actualContribution
  repeat' split
  all_goals first
    | exact isSixtieth_zero
    | exact isSixtieth_calculateHoursDifference ..

theorem isSixtieth_sum {l : List ℚ} (h : ∀ q ∈ l, IsSixtieth q) :
    IsSixtieth l.sum := by
  induction l with
  | nil => exact isSixtieth_zero
  | cons q l ih =>
    obtain ⟨k, hk⟩ := h q (List.mem_cons_self q l)
    obtain ⟨m, hm⟩ := ih (fun x hx => h x (List.mem_cons_of_mem q hx))
    exact ⟨k + m, by rw [List.sum_cons, hk, hm]; push_cast; ring⟩

theorem isSixtieth_sub {a b : ℚ} (ha : IsSixtieth a) (hb : IsSixtieth b) :
    IsSixtieth (a - b) := by
  obtain ⟨k, hk⟩ := ha
  obtain ⟨m, hm⟩ := hb
  exact ⟨k - m, by rw [hk, hm]; push_cast; ring⟩

theorem isSixtieth_rawExpected (records : List AttendanceRecord) (day : Nat) :
    IsSixtieth (rawExpected records day) := by
  unfold rawExpected
  refine isSixtieth_sum ?_
  intro q hq
  obtain ⟨r, _, rfl⟩ := List.mem_map.mp hq
  exact isSixtieth_expectedContribution r

theorem isSixtieth_rawActual (records : List AttendanceRecord) (day : Nat) :
    IsSixtieth (rawActual records day) := by
  unfold rawActual
  refine isSixtieth_sum ?_
  intro q hq
  obtain ⟨r, _, rfl⟩ := List.mem_map.mp hq
  exact isSixtieth_actualContribution r

/-- A non-negative residual `Math.max(0, x)` of a minute-granular `x` is
either zero or at least one minute. -/
theorem jsMax_sixtieth_cases {x : ℚ} (hx : IsSixtieth x) :
    jsMax 0 x = 0 ∨ (1 / 60 : ℚ) ≤ jsMax 0 x := by
  obtain ⟨k, rfl⟩ := hx
  by_cases hk : k ≤ 0
  · left
    refine jsMax_zero_of_nonpos ?_
    have : (k : ℚ) ≤ 0 := by exact_mod_cast hk
    linarith
  · right
    have h1 : (1 : ℤ) ≤ k := by omega
    have h1q : (1 : ℚ) ≤ (k : ℚ) := by exact_mod_cast h1
    have hpos : (0 : ℚ) ≤ (k : ℚ) / 60 := by linarith
    rw [jsMax_eq_of_nonneg hpos]
    linarith

/-- Rounding to two decimals does not change whether a minute-granular
non-negative residual is positive. -/
theorem jsRound2_pos_iff {m : ℚ} (h : m = 0 ∨ (1 / 60 : ℚ) ≤ m) :
    0 < jsRound2 m ↔ 0 < m := by
  rcases h with rfl | h
  · rw [jsRound2_zero]
  · constructor
    · intro _
      linarith
    · intro _
      have h2 : (2 : ℤ) ≤ ⌊m * 100 + 1/2⌋ := by
        rw [Int.le_floor]
        push_cast
        linarith
      have h2q : (2 : ℚ) ≤ ((⌊m * 100 + 1/2⌋ : ℤ) : ℚ) := by exact_mod_cast h2
      unfold jsRound2
      linarith

/-- `processDay` written without its local lets, for rewriting. -/
theorem processDay_def (records : List AttendanceRecord) (day : Nat) :
    processDay records day =
      { date := day
        expectedHours := jsRound2 (rawExpected records day)
        actualHours := jsRound2 (rawActual records day)
        missingHours := jsRound2 (rawMissing records day)
        overtimeHours := jsRound2 (rawOvertime records day)
        hasAttendance := attended records day
        status :=
          if attended records day then
            if rawMissing records day > 0 then .missing
            else if rawOvertime records day > 0 then .overtime
            else .complete
          else .noAttendance } := rfl

theorem isSixtieth_rawMissing_arg (records : List AttendanceRecord) (day : Nat) :
    IsSixtieth (rawExpected records day - rawActual records day) :=
  isSixtieth_sub (isSixtieth_rawExpected records day) (isSixtieth_rawActual records day)

theorem isSixtieth_rawOvertime_arg (records : List AttendanceRecord) (day : Nat) :
    IsSixtieth (rawActual records day - rawExpected records day) :=
  isSixtieth_sub (isSixtieth_rawActual records day) (isSixtieth_rawExpected records day)

/-- Witness for C1 at the overnight shift 22:00 – 06:00. -/
theorem calculateHoursDifference_spec_witness :
    calculateHoursDifference 1320 360 = (((360 : ℚ) + minutesPerDay) - 1320) / 60 ∧
    0 ≤ calculateHoursDifference 1320 360 := by
  have h := calculateHoursDifference_spec 1320 360 (by norm_num [minutesPerDay])
    (by norm_num [minutesPerDay])
  exact ⟨h.2.1 (by norm_num), h.2.2⟩

/-- C2: a day aggregate's `missingHours` and `overtimeHours` are never
both strictly positive — one of the two residuals is always zero, both in
the calendar view's per-day aggregate and in the hours-summary report. -/
theorem missing_overtime_never_both_positive (uid : String)
    (records : List AttendanceRecord) (day : Nat) :
    ((processDay records day).missingHours = 0 ∨
      (processDay records day).overtimeHours = 0) ∧
    ((calculateHoursSummary uid records).missingHours = 0 ∨
      (calculateHoursSummary uid records).overtimeHours = 0) := by
  have key : ∀ e a : ℚ, jsRound2 (jsMax 0 (e - a)) = 0 ∨ jsRound2 (jsMax 0 (a - e)) = 0 := by
    intro e a
    rcases le_total e a with h | h
    · left
      rw [jsMax_zero_of_nonpos (by linarith), jsRound2_zero]
    · right
      rw [jsMax_zero_of_nonpos (by linarith), jsRound2_zero]
  constructor
  · have h := key (rawExpected records day) (rawActual records day)
    rw [processDay_def]
    simpa [rawMissing, rawOvertime] using h
  · have h := key (records.foldl summaryStep (0, 0, 0)).1
      (records.foldl summaryStep (0, 0, 0)).2.1
    simpa [calculateHoursSummary] using h

/-- C3: a day is classified `no-attendance` exactly on zero records (and
then its expected and actual hours are zero); with records present, the
classification is `missing` when `missingHours > 0`, else `overtime` when
`overtimeHours > 0`, else `complete`. -/
theorem day_classification_spec (records : List AttendanceRecord) (day : Nat) :
    ((recordsOnDay records day).isEmpty = true →
      (processDay records day).status = DayStatus.noAttendance ∧
      (processDay records day).expectedHours = 0 ∧
      (processDay records day).actualHours = 0) ∧
    ((recordsOnDay records day).isEmpty = false →
      (processDay records day).status =
        (if (processDay records day).missingHours > 0 then DayStatus.missing
         else if (processDay records day).overtimeHours > 0 then DayStatus.overtime
         else DayStatus.complete)) := by
  constructor
  · intro h
    have hre : recordsOnDay records day = [] := List.isEmpty_iff.mp h
    have he : rawExpected records day = 0 := by
      unfold rawExpected
      rw [hre]
      simp
    have ha : rawActual records day = 0 := by
      unfold rawActual
      rw [hre]
      simp
    have hatt : attended records day = false := by
      unfold attended
      rw [hre]
      rfl
    rw [processDay_def]
    simp [hatt, he, ha, jsRound2_zero]
  · intro h
    have hatt : attended records day = true := by
      unfold attended
      rw [h]
      rfl
    have hm6 := jsMax_sixtieth_cases (isSixtieth_rawMissing_arg records day)
    have ho6 := jsMax_sixtieth_cases (isSixtieth_rawOvertime_arg records day)
    rw [show jsMax 0 (rawExpected records day - rawActual records day)
        = rawMissing records day from rfl] at hm6
    rw [show jsMax 0 (rawActual records day - rawExpected records day)
        = rawOvertime records day from rfl] at ho6
    have hmi := jsRound2_pos_iff hm6
    have hoi := jsRound2_pos_iff ho6
    rw [processDay_def]
    simp only [hatt, if_true, gt_iff_lt]
    by_cases h1 : 0 < rawMissing records day <;>
      by_cases h2 : 0 < rawOvertime records day <;>
      simp [h1, h2, hmi, hoi]

/-- Witness for C3 at a one-record day (shift 09:00 – 17:00, clock-in
09:05, clock-out 16:40, the spec's worked example: 0.42 missing hours,
classified `missing`) and at a zero-record day. -/
theorem day_classification_spec_witness :
    ((processDay
        [{ user_id := "u", waktu_day := 10, waktu_time := 545,
           clock_out_time := some 1000,
           shift := some { nama_shift := "pagi", jam_masuk := some 540,
                           jam_keluar := some 1020 } }] 10).status =
        (if (processDay
              [{ user_id := "u", waktu_day := 10, waktu_time := 545,
                 clock_out_time := some 1000,
                 shift := some { nama_shift := "pagi", jam_masuk := some 540,
                                 jam_keluar := some 1020 } }] 10).missingHours > 0
         then DayStatus.missing
         else if (processDay
              [{ user_id := "u", waktu_day := 10, waktu_time := 545,
                 clock_out_time := some 1000,
                 shift := some { nama_shift := "pagi", jam_masuk := some 540,
                                 jam_keluar := some 1020 } }] 10).overtimeHours > 0
         then DayStatus.overtime
         else DayStatus.complete)) ∧
    ((processDay ([] : List AttendanceRecord) 10).status = DayStatus.noAttendance ∧
      (processDay ([] : List AttendanceRecord) 10).expectedHours = 0 ∧
      (processDay ([] : List AttendanceRecord) 10).actualHours = 0) :=
  ⟨(day_classification_spec _ 10).2 rfl, (day_classification_spec [] 10).1 rfl⟩

/-- C4 counterexample: a record with no shift reference, clock-in 09:00
and clock-out 17:00. Its clock-in-to-clock-out span is 8 hours (positive),
yet the day's aggregate has `overtimeHours = 0` and is classified
`complete`, not `overtime`: the actual-hours computation sits inside the
shift guard, so a shiftless record contributes no actual hours at all. -/
theorem shiftless_day_counterexample :
    calculateHoursDifference 540 1020 = 8 ∧
    (processDay
      [{ user_id := "u", waktu_day := 0, waktu_time := 540,
         clock_out_time := some 1020, shift := none }] 0).overtimeHours = 0 ∧
    (processDay
      [{ user_id := "u", waktu_day := 0, waktu_time := 540,
         clock_out_time := some 1020, shift := none }] 0).actualHours = 0 ∧
    (processDay
      [{ user_id := "u", waktu_day := 0, waktu_time := 540,
         clock_out_time := some 1020, shift := none }] 0).status = DayStatus.complete := by
  refine ⟨by norm_num [calculateHoursDifference, minutesPerDay], ?_, ?_, ?_⟩ <;>
    norm_num [processDay, rawExpected, rawActual, recordsOnDay, attended,
      expectedContribution, actualContribution, jsMax, jsRound2]

/-- C4 as amended: a record with no shift reference contributes zero
expected hours and zero actual hours (the clock-in/clock-out span is
never computed for it), so a day whose records all lack shift references
has zero expected, actual and overtime hours, and — having attendance —
is classified `complete`, never `overtime`. -/
theorem shiftless_records_contribute_nothing :
    (∀ r : AttendanceRecord, r.shift = none →
      expectedContribution r = 0 ∧ actualContribution r = 0) ∧
    (∀ (records : List AttendanceRecord) (day : Nat),
      (∀ r ∈ recordsOnDay records day, r.shift = none) →
      (processDay records day).expectedHours = 0 ∧
      (processDay records day).actualHours = 0 ∧
      (processDay records day).overtimeHours = 0 ∧
      ((recordsOnDay records day).isEmpty = false →
        (processDay records day).status = DayStatus.complete)) := by
  have hcontrib : ∀ r : AttendanceRecord, r.shift = none →
      expectedContribution r = 0 ∧ actualContribution r = 0 := by
    intro r h
    unfold expectedContribution actualContribution
    rw [h]
    exact ⟨rfl, rfl⟩
  refine ⟨hcontrib, ?_⟩
  intro records day h
  have he : rawExpected records day = 0 := by
    unfold rawExpected
    refine List.sum_eq_zero ?_
    intro q hq
    obtain ⟨r, hr, rfl⟩ := List.mem_map.mp hq
    exact (hcontrib r (h r hr)).1
  have ha : rawActual records day = 0 := by
    unfold rawActual
    refine List.sum_eq_zero ?_
    intro q hq
    obtain ⟨r, hr, rfl⟩ := List.mem_map.mp hq
    exact (hcontrib r (h r hr)).2
  have hm : rawMissing records day = 0 := by
    unfold rawMissing
    rw [he, ha]
    exact jsMax_zero_of_nonpos (by norm_num)
  have ho : rawOvertime records day = 0 := by
    unfold rawOvertime
    rw [he, ha]
    exact jsMax_zero_of_nonpos (by norm_num)
  refine ⟨?_, ?_, ?_, ?_⟩
  · rw [processDay_def]
    simpa [he] using jsRound2_zero
  · rw [processDay_def]
    simpa [ha] using jsRound2_zero
  · rw [processDay_def]
    simpa [ho] using jsRound2_zero
  · intro hne
    have hatt : attended records day = true := by
      unfold attended
      rw [hne]
      rfl
    rw [processDay_def]
    simp [hatt, hm, ho]

/-- Witness for the amended C4 at the counterexample record. -/
theorem shiftless_records_contribute_nothing_witness :
    (expectedContribution
      { user_id := "u", waktu_day := 0, waktu_time := 540,
        clock_out_time := some 1020, shift := none } = 0 ∧
     actualContribution
      { user_id := "u", waktu_day := 0, waktu_time := 540,
        clock_out_time := some 1020, shift := none } = 0) ∧
    (processDay
      [{ user_id := "u", waktu_day := 0, waktu_time := 540,
         clock_out_time := some 1020, shift := none }] 0).status = DayStatus.complete :=
  ⟨shiftless_records_contribute_nothing.1 _ rfl,
   (shiftless_records_contribute_nothing.2
     [{ user_id := "u", waktu_day := 0, waktu_time := 540,
        clock_out_time := some 1020, shift := none }] 0
     (by intro r hr; simp [recordsOnDay] at hr; rw [hr])).2.2.2 rfl⟩

/-! ### Fold characterizations of the two accumulation loops -/

theorem foldl_summaryStep_char (records : List AttendanceRecord) (acc : ℚ × ℚ × Nat) :
    records.foldl summaryStep acc =
      (acc.1 + ((records.filter (fun r => hasCompleteShift r)).map expectedContribution).sum,
       acc.2.1 + ((records.filter (fun r => hasCompleteShift r)).map actualContribution).sum,
       acc.2.2 + records.countP (fun r => hasCompleteShift r)) := by
  induction records generalizing acc with
  | nil => simp
  | cons r rs ih =>
    rw [List.foldl_cons, ih]
    unfold summaryStep
    by_cases h : hasCompleteShift r
    · simp only [h, if_true, List.filter_cons, List.countP_cons, List.map_cons,
        List.sum_cons, Prod.mk.injEq]
      refine ⟨by ring, by ring, by omega⟩
    · simp only [h, Bool.false_eq_true, if_false, List.filter_cons, List.countP_cons,
        Prod.mk.injEq]
      refine ⟨trivial, trivial, by omega⟩

theorem foldl_gridDayStep_char (ua : List AttendanceRecord) (days : List Nat)
    (acc : GridAcc) :
    days.foldl (gridDayStep ua) acc =
      { totalMissingHours := acc.totalMissingHours +
          ((days.filter (fun d => attended ua d)).map (fun d => rawMissing ua d)).sum
        totalExpectedHours := acc.totalExpectedHours +
          ((days.filter (fun d => attended ua d)).map (fun d => rawExpected ua d)).sum
        totalActualHours := acc.totalActualHours +
          ((days.filter (fun d => attended ua d)).map (fun d => rawActual ua d)).sum
        workingDaysCount := acc.workingDaysCount + days.countP (fun d => attended ua d)
        dailyData := acc.dailyData ++ days.map (dayEntry ua) } := by
  induction days generalizing acc with
  | nil => simp
  | cons d ds ih =>
    rw [List.foldl_cons, ih]
    by_cases h : attended ua d
    · simp only [gridDayStep, h, if_true, List.filter_cons, List.countP_cons,
        List.map_cons, List.sum_cons, GridAcc.mk.injEq]
      refine ⟨?_, ?_, ?_, by omega, ?_⟩
      · unfold rawMissing rawExpected rawActual
        ring
      · unfold rawExpected
        ring
      · unfold rawActual
        ring
      · simp [List.append_assoc, dayEntry, rawMissing, rawExpected, rawActual, h]
    · simp only [gridDayStep, h, Bool.false_eq_true, if_false, List.filter_cons,
        List.countP_cons, List.map_cons, GridAcc.mk.injEq]
      refine ⟨trivial, trivial, trivial, by omega, ?_⟩
      simp [List.append_assoc, dayEntry, rawMissing, rawExpected, rawActual, h]

/-- `processGridUser` written through the loop characterization. -/
theorem processGridUser_def (days : List Nat) (att : List AttendanceRecord) (u : User) :
    processGridUser days att u =
      { userId := u.id
        userName := u.name
        dailyData := days.map (dayEntry (userRecords att u.id))
        totalMissingHours := jsRound2
          (((days.filter (fun d => attended (userRecords att u.id) d)).map
            (fun d => rawMissing (userRecords att u.id) d)).sum)
        totalExpectedHours := jsRound2
          (((days.filter (fun d => attended (userRecords att u.id) d)).map
            (fun d => rawExpected (userRecords att u.id) d)).sum)
        totalActualHours := jsRound2
          (((days.filter (fun d => attended (userRecords att u.id) d)).map
            (fun d => rawActual (userRecords att u.id) d)).sum)
        workingDays := days.countP (fun d => attended (userRecords att u.id) d) } := by
  simp only [processGridUser]
  rw [foldl_gridDayStep_char]
  simp

/-- `calculateHoursSummary` written through the loop characterization. -/
theorem calculateHoursSummary_def (uid : String) (records : List AttendanceRecord) :
    calculateHoursSummary uid records =
      { userId := uid
        workingDays := records.countP (fun r => hasCompleteShift r)
        totalExpectedHours := jsRound2
          (((records.filter (fun r => hasCompleteShift r)).map expectedContribution).sum)
        totalActualHours := jsRound2
          (((records.filter (fun r => hasCompleteShift r)).map actualContribution).sum)
        missingHours := jsRound2 (jsMax 0
          (((records.filter (fun r => hasCompleteShift r)).map expectedContribution).sum -
           ((records.filter (fun r => hasCompleteShift r)).map actualContribution).sum))
        overtimeHours := jsRound2 (jsMax 0
          (((records.filter (fun r => hasCompleteShift r)).map actualContribution).sum -
           ((records.filter (fun r => hasCompleteShift r)).map expectedContribution).sum))
        efficiency := jsRound2
          (if ((records.filter (fun r => hasCompleteShift r)).map expectedContribution).sum > 0
           then ((records.filter (fun r => hasCompleteShift r)).map actualContribution).sum /
                ((records.filter (fun r => hasCompleteShift r)).map expectedContribution).sum * 100
           else 0)
        averageHoursPerDay := jsRound2
          (if records.countP (fun r => hasCompleteShift r) > 0
           then ((records.filter (fun r => hasCompleteShift r)).map actualContribution).sum /
                (records.countP (fun r => hasCompleteShift r) : ℚ)
           else 0) } := by
  simp only [calculateHoursSummary]
  rw [foldl_summaryStep_char]
  simp

/-- C5: a record whose clock-out timestamp is absent contributes exactly
zero actual hours, and a nonzero actual contribution can only arise when
the clock-out timestamp is present. -/
theorem absent_clockout_zero_actual :
    (∀ r : AttendanceRecord, r.clock_out_time = none → actualContribution r = 0) ∧
    (∀ r : AttendanceRecord, actualContribution r ≠ 0 →
      ∃ t, r.clock_out_time = some t) := by
  have p1 : ∀ r : AttendanceRecord, r.clock_out_time = none → actualContribution r = 0 := by
    intro r h
    unfold actualContribution
    repeat' split <;> simp_all
  refine ⟨p1, ?_⟩
  intro r hne
  rcases hco : r.clock_out_time with _ | t
  · exact absurd (p1 r hco) hne
  · exact ⟨t, rfl⟩

/-- Witness for C5: an open session (shift assigned, no clock-out)
contributes zero actual hours; a closed session's nonzero contribution
comes with a present clock-out. -/
theorem absent_clockout_zero_actual_witness :
    actualContribution
      { user_id := "u", waktu_day := 0, waktu_time := 545,
        clock_out_time := none,
        shift := some { nama_shift := "pagi", jam_masuk := some 540,
                        jam_keluar := some 1020 } } = 0 ∧
    ∃ t, ({ user_id := "u", waktu_day := 0, waktu_time := 545,
            clock_out_time := some 1000,
            shift := some { nama_shift := "pagi", jam_masuk := some 540,
                            jam_keluar := some 1020 } } : AttendanceRecord).clock_out_time
          = some t :=
  ⟨absent_clockout_zero_actual.1 _ rfl,
   absent_clockout_zero_actual.2 _ (by
     norm_num [actualContribution, calculateHoursDifference, minutesPerDay])⟩

/-! ### C6, C7, C10: totals, absent days, working-day counting -/

theorem not_attended_eq_nil {ua : List AttendanceRecord} {d : Nat}
    (h : attended ua d = false) : recordsOnDay ua d = [] := by
  unfold attended at h
  rcases he : recordsOnDay ua d with _ | ⟨r, rs⟩
  · rfl
  · rw [he] at h
    simp at h

theorem rawExpected_of_not_attended {ua : List AttendanceRecord} {d : Nat}
    (h : attended ua d = false) : rawExpected ua d = 0 := by
  unfold rawExpected
  rw [not_attended_eq_nil h]
  rfl

theorem rawActual_of_not_attended {ua : List AttendanceRecord} {d : Nat}
    (h : attended ua d = false) : rawActual ua d = 0 := by
  unfold rawActual
  rw [not_attended_eq_nil h]
  rfl

theorem rawMissing_of_not_attended {ua : List AttendanceRecord} {d : Nat}
    (h : attended ua d = false) : rawMissing ua d = 0 := by
  unfold rawMissing
  rw [rawExpected_of_not_attended h, rawActual_of_not_attended h]
  exact jsMax_zero_of_nonpos (by norm_num)

theorem sum_map_filter_of_vanish (l : List Nat) (p : Nat → Bool) (f : Nat → ℚ)
    (h : ∀ d ∈ l, p d = false → f d = 0) :
    ((l.filter p).map f).sum = (l.map f).sum := by
  induction l with
  | nil => rfl
  | cons d ds ih =>
    have ih2 := ih (fun x hx hpx => h x (List.mem_cons_of_mem d hx) hpx)
    by_cases hp : p d
    · simp [List.filter_cons, hp, ih2]
    · have hz : f d = 0 := h d (List.mem_cons_self d ds) (by simpa using hp)
      simp [List.filter_cons, hp, ih2, hz]

theorem sum_map_bind (l : List Nat) (g : Nat → List AttendanceRecord)
    (f : AttendanceRecord → ℚ) :
    ((l.flatMap g).map f).sum = (l.map (fun d => ((g d).map f).sum)).sum := by
  induction l with
  | nil => rfl
  | cons d ds ih => simp [List.flatMap_cons, ih]

/-- C6: every reported two-decimal total equals the full-precision sum of
its per-record (or, for the missing residual, per-day) components with
the rounding applied once to the final sum — in the grid's monthly
totals and in the hours-summary report. -/
theorem totals_rounded_once (days : List Nat) (att : List AttendanceRecord)
    (u : User) (uid : String) (records : List AttendanceRecord) :
    (processGridUser days att u).totalExpectedHours
      = jsRound2 (((days.flatMap (fun d => recordsOnDay (userRecords att u.id) d)).map
          expectedContribution).sum) ∧
    (processGridUser days att u).totalActualHours
      = jsRound2 (((days.flatMap (fun d => recordsOnDay (userRecords att u.id) d)).map
          actualContribution).sum) ∧
    (processGridUser days att u).totalMissingHours
      = jsRound2 ((days.map (fun d => rawMissing (userRecords att u.id) d)).sum) ∧
    (calculateHoursSummary uid records).totalExpectedHours
      = jsRound2 (((records.filter (fun r => hasCompleteShift r)).map
          expectedContribution).sum) ∧
    (calculateHoursSummary uid records).totalActualHours
      = jsRound2 (((records.filter (fun r => hasCompleteShift r)).map
          actualContribution).sum) ∧
    (calculateHoursSummary uid records).missingHours
      = jsRound2 (jsMax 0
          (((records.filter (fun r => hasCompleteShift r)).map expectedContribution).sum -
           ((records.filter (fun r => hasCompleteShift r)).map actualContribution).sum)) ∧
    (calculateHoursSummary uid records).overtimeHours
      = jsRound2 (jsMax 0
          (((records.filter (fun r => hasCompleteShift r)).map actualContribution).sum -
           ((records.filter (fun r => hasCompleteShift r)).map expectedContribution).sum)) := by
  refine ⟨?_, ?_, ?_, ?_, ?_, ?_, ?_⟩
  · simp only [processGridUser_def]
    congr 1
    rw [sum_map_filter_of_vanish _ _ _
      (fun d _ hd => rawExpected_of_not_attended hd), sum_map_bind]
    unfold rawExpected
    rfl
  · simp only [processGridUser_def]
    congr 1
    rw [sum_map_filter_of_vanish _ _ _
      (fun d _ hd => rawActual_of_not_attended hd), sum_map_bind]
    unfold rawActual
    rfl
  · simp only [processGridUser_def]
    congr 1
    exact sum_map_filter_of_vanish _ _ _
      (fun d _ hd => rawMissing_of_not_attended hd)
  · simp only [calculateHoursSummary_def]
  · simp only [calculateHoursSummary_def]
  · simp only [calculateHoursSummary_def]
  · simp only [calculateHoursSummary_def]

/-- C7: the grid's monthly totals and working-day count accumulate only
over the days that have at least one attendance record: restricting the
day columns to the attended ones leaves every total unchanged, and
`workingDays` is exactly the number of attended day columns. -/
theorem absent_days_no_contribution (days : List Nat)
    (att : List AttendanceRecord) (u : User) :
    (processGridUser days att u).workingDays
      = (days.filter (fun d => attended (userRecords att u.id) d)).length ∧
    (processGridUser days att u).totalExpectedHours
      = (processGridUser (days.filter (fun d => attended (userRecords att u.id) d))
          att u).totalExpectedHours ∧
    (processGridUser days att u).totalActualHours
      = (processGridUser (days.filter (fun d => attended (userRecords att u.id) d))
          att u).totalActualHours ∧
    (processGridUser days att u).totalMissingHours
      = (processGridUser (days.filter (fun d => attended (userRecords att u.id) d))
          att u).totalMissingHours ∧
    (processGridUser days att u).workingDays
      = (processGridUser (days.filter (fun d => attended (userRecords att u.id) d))
          att u).workingDays := by
  refine ⟨?_, ?_, ?_, ?_, ?_⟩ <;>
    simp [processGridUser_def, List.filter_filter, List.countP_eq_length_filter]

/-- C10: the hours-summary `workingDays` counts records carrying a
complete shift (start and end times present) — not distinct calendar
days: two same-day shift-bearing records count twice, a shiftless record
counts zero times, and this count is the `averageHoursPerDay` divisor. -/
theorem summary_workingDays_counts_records (uid : String)
    (records : List AttendanceRecord) :
    (calculateHoursSummary uid records).workingDays
      = records.countP (fun r => hasCompleteShift r) ∧
    (∀ r : AttendanceRecord, r.shift = none → hasCompleteShift r = false) ∧
    (∀ r1 r2 : AttendanceRecord, hasCompleteShift r1 = true →
      hasCompleteShift r2 = true → r1.waktu_day = r2.waktu_day →
      (calculateHoursSummary uid [r1, r2]).workingDays = 2) ∧
    (0 < records.countP (fun r => hasCompleteShift r) →
      (calculateHoursSummary uid records).averageHoursPerDay
        = jsRound2 ((((records.filter (fun r => hasCompleteShift r)).map
            actualContribution).sum) /
            (records.countP (fun r => hasCompleteShift r) : ℚ))) := by
  refine ⟨?_, ?_, ?_, ?_⟩
  · simp [calculateHoursSummary_def]
  · intro r h
    unfold hasCompleteShift
    rw [h]
  · intro r1 r2 h1 h2 _
    simp [calculateHoursSummary_def, List.countP_cons, h1, h2]
  · intro h
    simp only [calculateHoursSummary_def]
    congr 1
    rw [if_pos]
    exact h

/-- Witness for C10: two records on the same day, each with a complete
shift, count as two working days; with one such record the average equals
the actual sum over the one-record divisor. -/
theorem summary_workingDays_counts_records_witness :
    (calculateHoursSummary "u" [sampleMorningRecord, sampleEveningRecord]).workingDays = 2 ∧
    (calculateHoursSummary "u" [sampleMorningRecord]).averageHoursPerDay
      = jsRound2 ((([sampleMorningRecord].filter
            (fun r => hasCompleteShift r)).map actualContribution).sum /
          ([sampleMorningRecord].countP (fun r => hasCompleteShift r) : ℚ)) :=
  ⟨(summary_workingDays_counts_records "u" []).2.2.1
      sampleMorningRecord sampleEveningRecord rfl rfl rfl,
   (summary_workingDays_counts_records "u" [sampleMorningRecord]).2.2.2
     (by norm_num [hasCompleteShift, sampleMorningRecord])⟩

/-! ### C8, C9: working-day enumeration and error behaviour -/

/-- C8: the grid's working-day columns are exactly the days of the month
whose day of week is neither Saturday (6) nor Sunday (0), listed in
calendar order (strictly increasing epoch days). -/
theorem working_days_weekday_filter (monthStart monthLen : Nat) :
    (∀ d, d ∈ workingDaysInMonth monthStart monthLen ↔
      (d ∈ monthDays monthStart monthLen ∧ dayOfWeek d ≠ 6 ∧ dayOfWeek d ≠ 0)) ∧
    List.Pairwise (· < ·) (workingDaysInMonth monthStart monthLen) := by
  constructor
  · intro d
    simp only [workingDaysInMonth, List.mem_filter, isWeekend, Bool.not_eq_eq_eq_not,
      Bool.not_true, Bool.or_eq_false_iff, beq_eq_false_iff_ne, ne_eq]
    tauto
  · refine List.Pairwise.sublist (List.filter_sublist _) ?_
    unfold monthDays eachDayOfInterval
    exact List.Pairwise.map _ (fun a b hab => by omega) (List.pairwise_lt_range _)

/-- Witness for C8 in a January-1970-shaped month (day 0 is a Thursday):
epoch day 2 is a Saturday and is excluded; the column list is strictly
increasing. -/
theorem working_days_weekday_filter_witness :
    ((2 ∈ workingDaysInMonth 0 31) ↔
      (2 ∈ monthDays 0 31 ∧ dayOfWeek 2 ≠ 6 ∧ dayOfWeek 2 ≠ 0)) ∧
    List.Pairwise (· < ·) (workingDaysInMonth 0 31) :=
  ⟨(working_days_weekday_filter 0 31).1 2, (working_days_weekday_filter 0 31).2⟩

/-- C9: a failed remote query leaves the previously displayed aggregate
data untouched. In the grid this holds for the user-query error and for
the attendance-query error; in the calendar view for the attendance-query
error. (The grid does overwrite its `workingDays` column list before the
queries run; only the aggregate `gridData`/`calendarData` rows are
preserved on the error branch.) -/
theorem fetch_error_preserves_data (s : GridState) (sc : CalendarState)
    (monthStart monthLen : Nat) (users : List User)
    (attendanceResult : Option (List AttendanceRecord)) :
    (fetchGridData s monthStart monthLen none attendanceResult).gridData
      = s.gridData ∧
    (fetchGridData s monthStart monthLen (some users) none).gridData
      = s.gridData ∧
    (fetchCalendarData sc monthStart monthLen none).calendarData
      = sc.calendarData :=
  ⟨rfl, rfl, rfl⟩

end Absensi
